import Mathlib

/-!
Verification development for the pty bridge daemon (`src/pty/ptyd.c`).

The C program is embedded shallowly:

* the growable parse buffer (`struct parser`) becomes a `Parser` structure
  holding the valid bytes `[0, len)` as a `List Nat` together with the
  capacity; bytes are natural numbers (the C type `uint8_t` guarantees
  values below 256, theorems add that hypothesis where the value matters);
* machine arithmetic is `Nat` with explicit `% 2^32` / `% 2^16` where the
  C performs 32-bit (usual arithmetic conversions on `5 + n`) or 16-bit
  (the `uint16_t` casts in the resize decoding) arithmetic;
* fallible OS effects (`write`, `ioctl`, `getpgid`, `kill`, `killpg`,
  `read`, `select`, `waitpid`) are oracles supplied by environment
  structures, so that every control path of the C code is representable;
* the frame-decoding loop `parse_and_apply_frames` becomes a single-step
  function `decodeStep` (one iteration of the `while` loop) iterated by a
  fuel-indexed driver, because the C loop does not terminate on all inputs
  (see the C10 analysis below);
* the `main` select loop becomes `loopIter` (one iteration) driven over a
  list of per-iteration oracle `Tick`s by `runLoop`.
-/

namespace Ptyd

/-- Opcode constants from the C `enum`. -/
def OPCODE_DATA : Nat := 1

/-- Resize opcode (`0x02`). -/
def OPCODE_RESIZE : Nat := 2

/-- Close opcode (`0x03`). -/
def OPCODE_CLOSE : Nat := 3

/-- Linux signal number for `SIGHUP`. -/
def SIGHUP : Nat := 1

/-- Linux signal number for `SIGWINCH`. -/
def SIGWINCH : Nat := 28

/-- The growable parse buffer `struct parser`: `data` is the list of the
`len` valid bytes `buf[0 .. len)`; `cap` is the allocated capacity. -/
structure Parser where
  data : List Nat
  cap : Nat

/-- `parser_init(p, cap)`: fresh empty buffer with the given capacity
(the successful-`malloc` path; allocation failure makes `main` return 1
before the buffer is ever used). -/
def parser_init (cap : Nat) : Parser := ⟨[], cap⟩

/-- The capacity-growth `while` loop of `parser_append`:
`while (next_cap < needed) next_cap *= 2`, started from `next_cap`.
The C loop does not terminate when the running capacity is 0; reachable
states always have positive capacity (`parser_init` is called with 8192),
so the `0 < c` guard only totalises the function outside that domain. -/
def growLoop (needed c : Nat) : Nat :=
  if h : 0 < c ∧ c < needed then growLoop needed (c * 2) else c
termination_by needed - c
decreasing_by omega

/-- `parser_append(p, data, n)` on the successful-`realloc` path: no-op on
empty input; otherwise grow the capacity (starting from `cap * 2`,
doubling until it covers `len + n`) when `len + n > cap`, then append the
bytes. -/
def parser_append (p : Parser) (d : List Nat) : Parser :=
  if d.length = 0 then p
  else if p.data.length + d.length > p.cap then
    ⟨p.data ++ d, growLoop (p.data.length + d.length) (p.cap * 2)⟩
  else
    ⟨p.data ++ d, p.cap⟩

/-- `parser_consume(p, n)`: if `n >= len` clear the buffer, otherwise
shift the remaining `len - n` bytes to the front. Capacity is untouched. -/
def parser_consume (p : Parser) (n : Nat) : Parser :=
  if n ≥ p.data.length then ⟨[], p.cap⟩
  else ⟨p.data.drop n, p.cap⟩

/-- Concatenation of a sequence of appended chunks (the reference value
for the buffer round-trip property). -/
def concatChunks : List (List Nat) → List Nat
  | [] => []
  | c :: cs => c ++ concatChunks cs

/-- A sequence of `parser_append` calls, first chunk first. -/
def appendAll (p : Parser) (chunks : List (List Nat)) : Parser :=
  chunks.foldl parser_append p

/-- `WIFEXITED(status)`: glibc encodes this as `(status & 0x7f) == 0`. -/
def wifexited (s : Nat) : Bool := s % 128 = 0

/-- `WEXITSTATUS(status)`: `(status & 0xff00) >> 8`. -/
def wexitstatus (s : Nat) : Nat := s / 256 % 256

/-- `WIFSIGNALED(status)`: glibc's
`((signed char)(((status & 0x7f) + 1) >> 1) > 0)`, which holds exactly
when `status & 0x7f` lies in `1 .. 126`. -/
def wifsignaled (s : Nat) : Bool := s % 128 ≠ 0 ∧ s % 128 ≠ 127

/-- `WTERMSIG(status)`: `status & 0x7f`. -/
def wtermsig (s : Nat) : Nat := s % 128

/-- `child_exit_code(status)`: exit value if the child exited normally,
`128 + signal` if it was killed by a signal, otherwise 1. -/
def child_exit_code (s : Nat) : Nat :=
  if wifexited s then wexitstatus s
  else if wifsignaled s then 128 + wtermsig s
  else 1

/-- Outcomes of the process-control system calls made by `signal_child`:
`pgidOf pid` is the result of `getpgid(pid)` (`none` models failure),
`killpgOk`/`killOk` tell whether `killpg`/`kill` succeed for a given
target and signal. -/
structure SigEnv where
  pgidOf : Nat → Option Nat
  killpgOk : Nat → Nat → Bool
  killOk : Nat → Nat → Bool

/-- A signal-delivery attempt: to a whole process group (`killpg`) or to
a single process (`kill`). -/
inductive Delivery where
  | group (pgid sig : Nat)
  | single (pid sig : Nat)

/-- `signal_child(pid, sig)`: resolve the child's process-group id with
`getpgid` (fresh on every call — the function holds no cached state); on
failure return -1 having attempted no delivery; if the group id equals
the pid, signal the whole group with `killpg`, otherwise signal the pid
alone with `kill`; return 0 on success and -1 on delivery failure. The
result pairs the C return value with the list of delivery attempts made. -/
def signal_child (env : SigEnv) (pid sig : Nat) : Int × List Delivery :=
  match env.pgidOf pid with
  | none => (-1, [])
  | some pgid =>
    if pgid = pid then
      if env.killpgOk pgid sig then (0, [Delivery.group pgid sig])
      else (-1, [Delivery.group pgid sig])
    else
      if env.killOk pid sig then (0, [Delivery.single pid sig])
      else (-1, [Delivery.single pid sig])

/-- Big-endian decoding of the two-byte fields of a Resize frame,
including the C `uint16_t` cast. -/
def be16 (b1 b2 : Nat) : Nat := (b1 * 256 + b2) % 65536

/-- Big-endian decoding of the four-byte length field of a Data frame,
including the C `uint32_t` arithmetic. -/
def be32 (b1 b2 b3 b4 : Nat) : Nat :=
  (b1 * 16777216 + b2 * 65536 + b3 * 256 + b4) % 4294967296

/-- Outcomes of the I/O effects applied by `parse_and_apply_frames`:
`writeOk payload` is the success of `write_all(master_fd, payload)`,
`winszOk cols rows` the success of the `TIOCSWINSZ` ioctl, and `sigEnv`
the process-control oracle passed down to `signal_child`. -/
structure Env where
  writeOk : List Nat → Bool
  winszOk : Nat → Nat → Bool
  sigEnv : SigEnv

/-- Observable actions of one decoding step: the bytes handed to
`write_all` for a Data frame, the window-size ioctl of a Resize frame,
the decoded Close frame, and a `signal_child` call together with its
result (recorded, never branched on — the C casts the call to `void`). -/
inductive Eff where
  | emitData (payload : List Nat)
  | emitResize (cols rows : Nat)
  | emitClose
  | signal (sig : Nat) (res : Int × List Delivery)

/-- Result of one iteration of the `while (p->len > 0)` loop of
`parse_and_apply_frames`: buffer empty (loop exits, return 0), frame
incomplete (return 0 keeping the buffer), fatal effect error (return -1),
or one frame handled with the buffer advanced. -/
inductive StepRes where
  | done
  | wait
  | fatal
  | step (p : Parser) (effs : List Eff)

/-- One iteration of the `parse_and_apply_frames` loop body. The Data
branch computes `(size_t)(5 + n)` exactly as C does: `5 + n` in 32-bit
unsigned arithmetic (so it wraps for `n > 2^32 - 6`), then widens. The
payload handed to `write_all` is modelled as the in-bounds bytes
`buf[5 .. 5+n)` truncated at the end of the buffer; when the wrapped
total passes the length check with fewer than `n` payload bytes present,
the C call reads past the end of the allocation (undefined behaviour)
while this model truncates. -/
def decodeStep (env : Env) (pid : Nat) (p : Parser) : StepRes :=
  match p.data with
  | [] => .done
  | op :: rest =>
    if op = OPCODE_DATA then
      match rest with
      | b1 :: b2 :: b3 :: b4 :: tail =>
        let n := be32 b1 b2 b3 b4
        let total := (5 + n) % 4294967296
        if p.data.length < total then .wait
        else
          let payload := tail.take n
          if 0 < n ∧ env.writeOk payload = false then .fatal
          else .step (parser_consume p total)
                 (if 0 < n then [Eff.emitData payload] else [])
      | _ => .wait
    else if op = OPCODE_RESIZE then
      match rest with
      | b1 :: b2 :: b3 :: b4 :: _ =>
        let cols := be16 b1 b2
        let rows := be16 b3 b4
        if env.winszOk cols rows = false then .fatal
        else .step (parser_consume p 5)
               [Eff.emitResize cols rows,
                Eff.signal SIGWINCH (signal_child env.sigEnv pid SIGWINCH)]
      | _ => .wait
    else if op = OPCODE_CLOSE then
      .step (parser_consume p 1)
        [Eff.emitClose, Eff.signal SIGHUP (signal_child env.sigEnv pid SIGHUP)]
    else
      .step (parser_consume p 1) []

/-- `parse_and_apply_frames(p, master_fd, child_pid)`, iterated with
explicit fuel because the C loop fails to terminate on some inputs (a
step can consume zero bytes, see the C10 analysis). `none` means the
fuel ran out; `some (.error ())` is the C return value -1, and
`some (.ok (p, effs))` is return value 0 with the final buffer and the
effects applied, in order. -/
def parse_and_apply_frames (env : Env) (pid : Nat) :
    Nat → Parser → Option (Except Unit (Parser × List Eff))
  | 0, _ => none
  | fuel + 1, p =>
    match decodeStep env pid p with
    | .done => some (Except.ok (p, []))
    | .wait => some (Except.ok (p, []))
    | .fatal => some (Except.error ())
    | .step p2 effs =>
      match parse_and_apply_frames env pid fuel p2 with
      | none => none
      | some (Except.error e) => some (Except.error e)
      | some (Except.ok (p3, more)) => some (Except.ok (p3, effs ++ more))

/-- A process-control oracle on which every call succeeds and every
process is its own group leader. -/
def allOkSig : SigEnv := ⟨fun q => some q, fun _ _ => true, fun _ _ => true⟩

/-- An effect oracle on which every write, ioctl and signal succeeds. -/
def allOkEnv : Env := ⟨fun _ => true, fun _ _ => true, allOkSig⟩

/-- Result of a `read` call: end-of-stream (`0`), an error (`-1`, with
the flag telling whether `errno == EINTR`), or bytes. -/
inductive ReadRes where
  | eof
  | err (eintr : Bool)
  | data (bytes : List Nat)

/-- Result of the `select` call: an error (with the `EINTR` flag) or the
readiness flags `FD_ISSET(STDIN_FILENO)` / `FD_ISSET(master_fd)` (a
timeout is `ready false false`). -/
inductive SelRes where
  | err (eintr : Bool)
  | ready (stdinReady masterReady : Bool)

/-- Oracle for one iteration of the `main` select loop: the result of
the `waitpid(pid, WNOHANG)` poll (`some status` when the child is reaped
now), the `select` outcome, the outcomes of the `read` calls on stdin
and on the pty master (consulted only when the iteration performs them),
the status a blocking `waitpid` would return at pty end-of-stream, the
effect oracle for `parse_and_apply_frames`, and the success of
`parser_append`'s `realloc` and of `write_all` to stdout. -/
structure Tick where
  reaped : Option Nat
  sel : SelRes
  stdinRead : ReadRes
  masterRead : ReadRes
  finalStatus : Nat
  env : Env
  appendOk : Bool
  stdoutOk : Bool

/-- Mutable state of the `main` loop: the `stdin_open` flag and the
parse buffer. -/
structure LoopState where
  stdinOpen : Bool
  p : Parser

/-- Result of one loop iteration: the process returns with an exit code
(having relayed `relayed` bytes to stdout this iteration), or the loop
continues with a new state, or the iteration is stuck inside the
non-terminating decode loop (fuel exhausted in the model). -/
inductive IterRes where
  | exit (code : Nat) (relayed : List Nat)
  | next (st : LoopState) (relayed : List Nat)
  | spin

/-- The tail of a loop iteration after stdin handling: the
`FD_ISSET(master_fd, &readfds)` block. End-of-stream performs the
blocking `waitpid` and returns the mapped exit code; an `EINTR` read
continues the loop; another read error returns 1; data is written to
stdout by `write_all` (failure returns 1). -/
def masterPhase (t : Tick) (st : LoopState) (masterReady : Bool) : IterRes :=
  if masterReady then
    match t.masterRead with
    | .eof => .exit (child_exit_code t.finalStatus) []
    | .err true => .next st []
    | .err false => .exit 1 []
    | .data bytes => if t.stdoutOk then .next st bytes else .exit 1 []
  else .next st []

/-- One iteration of the `for (;;)` loop of `main`: poll the child with
`waitpid(WNOHANG)` and return its mapped exit code if it has terminated;
`select` on {stdin (if still open), master} (`EINTR` retries, another
error returns 1); if stdin is ready, read it — end-of-stream or a
non-`EINTR` error clears `stdin_open`, data is appended to the buffer
(`realloc` failure returns 1) and fed to `parse_and_apply_frames` (a
fatal effect error returns 1); finally handle the master side. -/
def loopIter (pid fuel : Nat) (t : Tick) (st : LoopState) : IterRes :=
  match t.reaped with
  | some status => .exit (child_exit_code status) []
  | none =>
    match t.sel with
    | .err true => .next st []
    | .err false => .exit 1 []
    | .ready stdinReady masterReady =>
      if st.stdinOpen && stdinReady then
        match t.stdinRead with
        | .eof => masterPhase t ⟨false, st.p⟩ masterReady
        | .err true => masterPhase t st masterReady
        | .err false => masterPhase t ⟨false, st.p⟩ masterReady
        | .data bytes =>
          if t.appendOk then
            match parse_and_apply_frames t.env pid fuel (parser_append st.p bytes) with
            | none => .spin
            | some (Except.error _) => .exit 1 []
            | some (Except.ok (p2, _)) => masterPhase t ⟨st.stdinOpen, p2⟩ masterReady
          else .exit 1 []
      else masterPhase t st masterReady

/-- Result of running the loop over a list of iteration oracles: the
process exited with a code, or the oracle list was exhausted with the
loop still running, or an iteration got stuck in the decode loop. In
each case `relayed` collects the bytes written to stdout, in order. -/
inductive RunRes where
  | exited (code : Nat) (relayed : List Nat)
  | running (st : LoopState) (relayed : List Nat)
  | spun (relayed : List Nat)

/-- Run the `main` loop, one oracle `Tick` per iteration. -/
def runLoop (pid fuel : Nat) : List Tick → LoopState → RunRes
  | [], st => .running st []
  | t :: ts, st =>
    match loopIter pid fuel t st with
    | .exit c out => .exited c out
    | .spin => .spun []
    | .next st2 out =>
      match runLoop pid fuel ts st2 with
      | .exited c more => .exited c (out ++ more)
      | .running st3 more => .running st3 (out ++ more)
      | .spun more => .spun (out ++ more)

/-! Helper lemmas about the buffer operations and the growth loop. -/

theorem growLoop_stop (n c : Nat) (h : ¬(0 < c ∧ c < n)) : growLoop n c = c := by
  rw [growLoop]; simp [h]

theorem growLoop_step (n c : Nat) (h : 0 < c ∧ c < n) :
    growLoop n c = growLoop n (c * 2) := by
  rw [growLoop]; simp [h]

theorem growLoop_ge_self (n c : Nat) : c ≤ growLoop n c := by
  refine growLoop.induct n (fun c => c ≤ growLoop n c) ?_ ?_ c
  · intro x h ih
    rw [growLoop_step n x h]
    omega
  · intro x h
    rw [growLoop_stop n x h]

theorem growLoop_covers (n c : Nat) (hc : 0 < c) : n ≤ growLoop n c := by
  refine growLoop.induct n (fun c => 0 < c → n ≤ growLoop n c) ?_ ?_ c hc
  · intro x h ih hx
    rw [growLoop_step n x h]
    exact ih (by omega)
  · intro x h hx
    rw [growLoop_stop n x h]
    omega

theorem growLoop_pow (n c : Nat) : ∃ k, growLoop n c = c * 2 ^ k := by
  refine growLoop.induct n (fun c => ∃ k, growLoop n c = c * 2 ^ k) ?_ ?_ c
  · intro x h ih
    obtain ⟨k, hk⟩ := ih
    refine ⟨k + 1, ?_⟩
    rw [growLoop_step n x h, hk]
    ring
  · intro x h
    exact ⟨0, by rw [growLoop_stop n x h]; ring⟩

theorem parser_append_data (p : Parser) (d : List Nat) :
    (parser_append p d).data = p.data ++ d := by
  by_cases hd : d.length = 0
  · simp [parser_append, hd, List.length_eq_zero.mp hd]
  · by_cases hg : p.data.length + d.length > p.cap
    · simp [parser_append, hd, hg]
    · simp [parser_append, hd, hg]

theorem parser_consume_eq (p : Parser) (k : Nat) :
    parser_consume p k = ⟨p.data.drop k, p.cap⟩ := by
  unfold parser_consume
  split
  · next h => rw [List.drop_eq_nil_of_le h]
  · rfl

theorem appendAll_cons (p : Parser) (c : List Nat) (cs : List (List Nat)) :
    appendAll p (c :: cs) = appendAll (parser_append p c) cs := rfl

theorem appendAll_data (chunks : List (List Nat)) (p : Parser) :
    (appendAll p chunks).data = p.data ++ concatChunks chunks := by
  induction chunks generalizing p with
  | nil => simp [appendAll, concatChunks]
  | cons c cs ih =>
    rw [appendAll_cons, ih, parser_append_data, concatChunks, List.append_assoc]

/-! Theorems for the claims. -/

/-- C3: for every sequence of append calls on an initially empty buffer
and every `k` at most the total number of bytes appended, consuming `k`
leaves exactly the suffix, starting at offset `k`, of the concatenation
of the appended chunks, in order; and for every `k` at least the current
length, consuming `k` empties the buffer rather than underflowing. -/
theorem claim_C3_buffer_roundtrip (cap : Nat) (chunks : List (List Nat)) (k : Nat) :
    (k ≤ (concatChunks chunks).length →
      (parser_consume (appendAll (parser_init cap) chunks) k).data
        = (concatChunks chunks).drop k) ∧
    (k ≥ (appendAll (parser_init cap) chunks).data.length →
      (parser_consume (appendAll (parser_init cap) chunks) k).data = []) := by
  constructor
  · intro _
    rw [parser_consume_eq, appendAll_data]
    rfl
  · intro h
    rw [parser_consume_eq]
    exact List.drop_eq_nil_of_le h

/-- Witness for C3 at a concrete input. -/
theorem claim_C3_witness :
    2 ≤ (concatChunks [[1, 2], [3, 4, 5]]).length ∧
    (parser_consume (appendAll (parser_init 8192) [[1, 2], [3, 4, 5]]) 2).data
      = (concatChunks [[1, 2], [3, 4, 5]]).drop 2 :=
  ⟨by decide, (claim_C3_buffer_roundtrip 8192 [[1, 2], [3, 4, 5]] 2).1 (by decide)⟩

/-- C4: the exit-code mapping returns the child's reported exit value on
normal termination (a normal-exit wait status is `256 * code`), returns
`128 + signal` when the child was killed by a signal (a killed-by-signal
wait status has `status % 128 = signal`, the core-dump bit apart), and
returns 1 for any other termination shape (`status % 128 = 127`). -/
theorem claim_C4_exit_code_mapping :
    (∀ code, code < 256 → child_exit_code (256 * code) = code) ∧
    (∀ s, 1 ≤ s % 128 → s % 128 ≤ 126 → child_exit_code s = 128 + s % 128) ∧
    (∀ s, s % 128 = 127 → child_exit_code s = 1) := by
  refine ⟨?_, ?_, ?_⟩
  · intro code h
    have h1 : 256 * code % 128 = 0 := by omega
    simp [child_exit_code, wifexited, wexitstatus, h1]
    omega
  · intro s h1 h2
    have hne : ¬(s % 128 = 0) := by omega
    have hne2 : ¬(s % 128 = 127) := by omega
    simp [child_exit_code, wifexited, wifsignaled, wtermsig, hne, hne2]
  · intro s h
    have hne : ¬(s % 128 = 0) := by omega
    simp [child_exit_code, wifexited, wifsignaled, wtermsig, hne, h]

/-- Witness for C4: normal exit 0 maps to 0 and signal 9 maps to 137. -/
theorem claim_C4_witness :
    ((0 : Nat) < 256 ∧ child_exit_code (256 * 0) = 0) ∧
    (1 ≤ 9 % 128 ∧ 9 % 128 ≤ 126 ∧ child_exit_code 9 = 128 + 9 % 128) :=
  ⟨⟨by decide, claim_C4_exit_code_mapping.1 0 (by decide)⟩,
   by decide, by decide, claim_C4_exit_code_mapping.2.1 9 (by decide) (by decide)⟩

/-- C9: the invariant `length ≤ capacity` holds after initialization and
is preserved by append (given a positive capacity, as established by
initialization) and by consume; when an append would exceed the
capacity, the capacity grows by repeated doubling (`capacity * 2 ^ k`
for some `k ≥ 1`) until it covers the required size; no operation
shrinks the capacity. -/
theorem claim_C9_buffer_invariant :
    (∀ cap, (parser_init cap).data.length ≤ (parser_init cap).cap) ∧
    (∀ p d, 0 < p.cap → p.data.length ≤ p.cap →
      (parser_append p d).data.length ≤ (parser_append p d).cap ∧
      p.cap ≤ (parser_append p d).cap) ∧
    (∀ p d, 0 < p.cap → p.data.length + d.length > p.cap → d.length ≠ 0 →
      ∃ k, 1 ≤ k ∧ (parser_append p d).cap = p.cap * 2 ^ k ∧
        p.data.length + d.length ≤ (parser_append p d).cap) ∧
    (∀ p k, p.data.length ≤ p.cap →
      (parser_consume p k).data.length ≤ (parser_consume p k).cap ∧
      (parser_consume p k).cap = p.cap) := by
  refine ⟨?_, ?_, ?_, ?_⟩
  · intro cap
    simp [parser_init]
  · intro p d hpos hinv
    by_cases hd : d.length = 0
    · simp only [parser_append, if_pos hd]
      exact ⟨hinv, Nat.le_refl _⟩
    · by_cases hg : p.data.length + d.length > p.cap
      · simp only [parser_append, if_neg hd, if_pos hg]
        refine ⟨?_, ?_⟩
        · simp only [List.length_append]
          exact growLoop_covers _ _ (by omega)
        · exact (by omega : p.cap ≤ p.cap * 2).trans (growLoop_ge_self _ _)
      · simp only [parser_append, if_neg hd, if_neg hg]
        exact ⟨by simp only [List.length_append]; omega, Nat.le_refl _⟩
  · intro p d hpos hg hd
    simp only [parser_append, if_neg hd, if_pos hg]
    obtain ⟨j, hj⟩ := growLoop_pow (p.data.length + d.length) (p.cap * 2)
    refine ⟨j + 1, by omega, ?_, ?_⟩
    · rw [hj]; ring
    · exact growLoop_covers _ _ (by omega)
  · intro p k hinv
    unfold parser_consume
    split
    · exact ⟨by simp, rfl⟩
    · refine ⟨?_, rfl⟩
      simp only [List.length_drop]
      omega

/-- Witness for C9 at a concrete input: appending 3 bytes to a full
2-byte buffer of capacity 2 doubles the capacity twice, to 8. -/
theorem claim_C9_witness :
    (0 < (2 : Nat) ∧ (2 : Nat) ≤ 2 ∧
      (parser_append ⟨[0, 0], 2⟩ [1, 2, 3]).data.length
        ≤ (parser_append ⟨[0, 0], 2⟩ [1, 2, 3]).cap ∧
      2 ≤ (parser_append ⟨[0, 0], 2⟩ [1, 2, 3]).cap) ∧
    (∃ k, 1 ≤ k ∧ (parser_append ⟨[0, 0], 2⟩ [1, 2, 3]).cap = 2 * 2 ^ k ∧
      5 ≤ (parser_append ⟨[0, 0], 2⟩ [1, 2, 3]).cap) ∧
    ((parser_consume ⟨[0, 0], 2⟩ 1).data.length ≤ (parser_consume ⟨[0, 0], 2⟩ 1).cap ∧
      (parser_consume ⟨[0, 0], 2⟩ 1).cap = 2) :=
  ⟨⟨by decide, by decide,
    claim_C9_buffer_invariant.2.1 ⟨[0, 0], 2⟩ [1, 2, 3] (by decide) (by decide)⟩,
   claim_C9_buffer_invariant.2.2.1 ⟨[0, 0], 2⟩ [1, 2, 3] (by decide) (by decide) (by decide),
   claim_C9_buffer_invariant.2.2.2 ⟨[0, 0], 2⟩ 1 (by decide)⟩

/-- C5: `signal_child` resolves the child's process-group id on every
call (the resolver is consulted afresh; no cached value exists in any
state); if resolution fails it returns -1 having attempted no delivery;
if the resolved group id equals the child's pid the signal goes to the
whole process group, otherwise to the child pid alone; a delivery
failure is reported as -1 with no further delivery attempted. -/
theorem claim_C5_signal_delivery (env : SigEnv) (pid sig : Nat) :
    (env.pgidOf pid = none → signal_child env pid sig = (-1, [])) ∧
    (env.pgidOf pid = some pid →
      (signal_child env pid sig).2 = [Delivery.group pid sig] ∧
      ((signal_child env pid sig).1 = 0 ↔ env.killpgOk pid sig = true)) ∧
    (∀ g, env.pgidOf pid = some g → g ≠ pid →
      (signal_child env pid sig).2 = [Delivery.single pid sig] ∧
      ((signal_child env pid sig).1 = 0 ↔ env.killOk pid sig = true)) := by
  refine ⟨?_, ?_, ?_⟩
  · intro h
    simp [signal_child, h]
  · intro h
    by_cases hk : env.killpgOk pid sig = true
    · simp [signal_child, h, hk]
    · simp [signal_child, h, hk]
  · intro g h hne
    by_cases hk : env.killOk pid sig = true
    · simp [signal_child, h, hne, hk]
    · simp [signal_child, h, hne, hk]

/-- Witness for C5: with an oracle on which the child is its own group
leader and `killpg` succeeds, the signal goes to the whole group. -/
theorem claim_C5_witness :
    (signal_child allOkSig 5 1).2 = [Delivery.group 5 1] ∧
    ((signal_child allOkSig 5 1).1 = 0 ↔ allOkSig.killpgOk 5 1 = true) :=
  (claim_C5_signal_delivery allOkSig 5 1).2.1 rfl

/-- C7: for every buffer whose first byte is none of the opcodes 1, 2, 3,
one decoding step consumes exactly 1 byte, emits no frame and applies no
effect, and scanning continues from the next byte; in particular the
buffer `[0xFF, 0xFF, 0x03]` is consumed one noise byte at a time with
nothing emitted, after which `Close` is decoded (the hangup signal to
the child) and the buffer is empty. -/
theorem claim_C7_noise_skip (env : Env) (pid op : Nat) (rest : List Nat) (cap : Nat)
    (h1 : op ≠ OPCODE_DATA) (h2 : op ≠ OPCODE_RESIZE) (h3 : op ≠ OPCODE_CLOSE) :
    decodeStep env pid ⟨op :: rest, cap⟩ = StepRes.step ⟨rest, cap⟩ [] ∧
    parse_and_apply_frames allOkEnv 7 4 ⟨[255, 255, 3], 8192⟩
      = some (Except.ok (⟨[], 8192⟩,
          [Eff.emitClose, Eff.signal SIGHUP (0, [Delivery.group 7 1])])) := by
  constructor
  · simp [decodeStep, h1, h2, h3, parser_consume_eq]
  · rfl

/-- Witness for C7: the unrecognized byte `0xFF` is skipped alone, and
the full `[0xFF, 0xFF, 0x03]` run ends with `Close` and empty buffer. -/
theorem claim_C7_witness :
    decodeStep allOkEnv 7 ⟨255 :: [255, 3], 8192⟩ = StepRes.step ⟨[255, 3], 8192⟩ [] ∧
    parse_and_apply_frames allOkEnv 7 4 ⟨[255, 255, 3], 8192⟩
      = some (Except.ok (⟨[], 8192⟩,
          [Eff.emitClose, Eff.signal SIGHUP (0, [Delivery.group 7 1])])) :=
  claim_C7_noise_skip allOkEnv 7 255 [255, 3] 8192 (by decide) (by decide) (by decide)

/-- An effect oracle whose `TIOCSWINSZ` ioctl always fails (all other
effects succeed). -/
def badWinszEnv : Env := ⟨fun _ => true, fun _ _ => false, allOkSig⟩

/-- C6: a Resize frame decodes columns and rows as 2-byte big-endian
fields, applies the window-size ioctl and delivers a window-change
signal whose outcome is recorded but never escalated (the step result is
the same whatever `signal_child` returns, because the environment `env`
is arbitrary), and consumes exactly 5 bytes; a failing window-size ioctl
aborts decoding fatally (`parse_and_apply_frames` returns the error that
makes the session exit with a generic failure). -/
theorem claim_C6_resize (env : Env) (pid b1 b2 b3 b4 : Nat) (rest : List Nat) (cap : Nat)
    (hb1 : b1 < 256) (hb2 : b2 < 256) (hb3 : b3 < 256) (hb4 : b4 < 256) :
    (env.winszOk (b1 * 256 + b2) (b3 * 256 + b4) = false →
      decodeStep env pid ⟨OPCODE_RESIZE :: b1 :: b2 :: b3 :: b4 :: rest, cap⟩
        = StepRes.fatal) ∧
    (env.winszOk (b1 * 256 + b2) (b3 * 256 + b4) = true →
      decodeStep env pid ⟨OPCODE_RESIZE :: b1 :: b2 :: b3 :: b4 :: rest, cap⟩
        = StepRes.step ⟨rest, cap⟩
            [Eff.emitResize (b1 * 256 + b2) (b3 * 256 + b4),
             Eff.signal SIGWINCH (signal_child env.sigEnv pid SIGWINCH)]) ∧
    (∀ fuel, env.winszOk (b1 * 256 + b2) (b3 * 256 + b4) = false →
      parse_and_apply_frames env pid (fuel + 1)
          ⟨OPCODE_RESIZE :: b1 :: b2 :: b3 :: b4 :: rest, cap⟩
        = some (Except.error ())) := by
  have e1 : be16 b1 b2 = b1 * 256 + b2 := by unfold be16; omega
  have e2 : be16 b3 b4 = b3 * 256 + b4 := by unfold be16; omega
  refine ⟨?_, ?_, ?_⟩
  · intro h
    simp [decodeStep, OPCODE_DATA, OPCODE_RESIZE, e1, e2, h]
  · intro h
    simp [decodeStep, OPCODE_DATA, OPCODE_RESIZE, e1, e2, h, parser_consume_eq]
  · intro fuel h
    simp [parse_and_apply_frames, decodeStep, OPCODE_DATA, OPCODE_RESIZE, e1, e2, h]

/-- Witness for C6: `[0x02, 0x00, 0x50, 0x00, 0x18]` decodes to
columns 80 and rows 24 consuming all 5 bytes when the ioctl succeeds,
and is fatal when the ioctl fails. -/
theorem claim_C6_witness :
    decodeStep allOkEnv 7 ⟨[2, 0, 80, 0, 24], 8192⟩
      = StepRes.step ⟨[], 8192⟩
          [Eff.emitResize 80 24,
           Eff.signal SIGWINCH (signal_child allOkSig 7 SIGWINCH)] ∧
    decodeStep badWinszEnv 7 ⟨[2, 0, 80, 0, 24], 8192⟩ = StepRes.fatal :=
  ⟨(claim_C6_resize allOkEnv 7 0 80 0 24 [] 8192
      (by decide) (by decide) (by decide) (by decide)).2.1 rfl,
   (claim_C6_resize badWinszEnv 7 0 80 0 24 [] 8192
      (by decide) (by decide) (by decide) (by decide)).1 rfl⟩

/-- C1 (code-bug evidence): the C computes the frame total as
`(size_t)(5 + n)` where `5 + n` is 32-bit unsigned arithmetic, so for
the buffer `[0x01, 0xFF, 0xFF, 0xFF, 0xFF]` — a Data header whose
length field is `n = 4294967295`, with 0 of the `n` payload bytes
present — the wrapped total is 4, the completeness check passes even
though fewer than `5 + n` bytes are buffered, `write_all` is invoked
(in C it reads `n` bytes starting past the end of the 5-byte buffer),
and 4 bytes are consumed, instead of emitting nothing and leaving the
buffer unchanged as the claim states. -/
theorem claim_C1_overflow_bug :
    decodeStep allOkEnv 7 ⟨[1, 255, 255, 255, 255], 8192⟩
      = StepRes.step ⟨[255], 8192⟩ [Eff.emitData []] ∧
    be32 255 255 255 255 = 4294967295 ∧
    (5 : Nat) < 5 + 4294967295 :=
  ⟨rfl, rfl, by decide⟩

/-- C10 (code-bug evidence): for the buffer
`[0x01, 0xFF, 0xFF, 0xFF, 0xFB]` the length field is `n = 4294967291`,
the wrapped total `(size_t)(5 + n)` is 0, so the decode step consumes
zero bytes and leaves the buffer identical; the `while (p->len > 0)`
loop of `parse_and_apply_frames` therefore never terminates (the
fuel-indexed model exhausts any amount of fuel). -/
theorem claim_C10_nontermination_bug :
    decodeStep allOkEnv 7 ⟨[1, 255, 255, 255, 251], 8192⟩
      = StepRes.step ⟨[1, 255, 255, 255, 251], 8192⟩ [Eff.emitData []] ∧
    ∀ fuel, parse_and_apply_frames allOkEnv 7 fuel ⟨[1, 255, 255, 255, 251], 8192⟩
      = none := by
  have hstep : decodeStep allOkEnv 7 ⟨[1, 255, 255, 255, 251], 8192⟩
      = StepRes.step ⟨[1, 255, 255, 255, 251], 8192⟩ [Eff.emitData []] := rfl
  refine ⟨hstep, ?_⟩
  intro fuel
  induction fuel with
  | zero => rfl
  | succ m ih => simp [parse_and_apply_frames, hstep, ih]

/-- C2 (counterexample): when the non-blocking child poll at the top of
an iteration observes termination while pseudoterminal output is still
pending in the environment (the master read of the same tick would have
returned `[104, 105]`), the loop exits at once relaying nothing — it
does not drain and relay the pending bytes as the claim states. -/
theorem claim_C2_counterexample :
    runLoop 7 5
        [⟨some 0, SelRes.ready false true, ReadRes.eof, ReadRes.data [104, 105], 0,
          allOkEnv, true, true⟩]
        ⟨true, parser_init 8192⟩
      = RunRes.exited 0 [] ∧
    ([] : List Nat) ≠ [104, 105] :=
  ⟨rfl, by decide⟩

/-- C2 (amended): if the child is observed terminated by the
non-blocking poll, the session exits immediately with the child's
mapped exit code — without waiting for a subsequent read to observe
end-of-stream — relaying no further pseudoterminal output from that
point (buffered output not yet read is not drained). -/
theorem claim_C2_exit_on_reap (pid fuel : Nat) (t : Tick) (ts : List Tick)
    (st : LoopState) (s : Nat) (h : t.reaped = some s) :
    runLoop pid fuel (t :: ts) st = RunRes.exited (child_exit_code s) [] := by
  simp [runLoop, loopIter, h]

/-- Witness for C2: a child reaped with raw status 9 (killed by signal
9) makes the loop exit at once with code 137. -/
theorem claim_C2_witness :
    runLoop 7 3
        [⟨some 9, SelRes.ready false false, ReadRes.eof, ReadRes.eof, 0,
          allOkEnv, true, true⟩]
        ⟨true, parser_init 8192⟩
      = RunRes.exited (child_exit_code 9) [] :=
  claim_C2_exit_on_reap 7 3 _ [] _ 9 rfl

/-- C8: with the child still running and stdin ready, a stdin read that
returns end-of-stream or fails with a non-retryable error marks
controller input closed and the iteration continues the loop rather
than exiting; an interrupted (`EINTR`) read leaves it open; and once
controller input is closed the loop still relays pseudoterminal output. -/
theorem claim_C8_stdin_close (pid fuel : Nat) (t : Tick) (st : LoopState)
    (hr : t.reaped = none) (hsel : t.sel = SelRes.ready true false)
    (hopen : st.stdinOpen = true) :
    (t.stdinRead = ReadRes.eof →
      loopIter pid fuel t st = IterRes.next ⟨false, st.p⟩ []) ∧
    (t.stdinRead = ReadRes.err false →
      loopIter pid fuel t st = IterRes.next ⟨false, st.p⟩ []) ∧
    (t.stdinRead = ReadRes.err true →
      loopIter pid fuel t st = IterRes.next st []) ∧
    (∀ bs p2 t2, t2.reaped = none → t2.sel = SelRes.ready false true →
      t2.masterRead = ReadRes.data bs → t2.stdoutOk = true →
      loopIter pid fuel t2 ⟨false, p2⟩ = IterRes.next ⟨false, p2⟩ bs) := by
  refine ⟨?_, ?_, ?_, ?_⟩
  · intro h
    simp [loopIter, masterPhase, hr, hsel, hopen, h]
  · intro h
    simp [loopIter, masterPhase, hr, hsel, hopen, h]
  · intro h
    simp [loopIter, masterPhase, hr, hsel, hopen, h]
  · intro bs p2 t2 h1 h2 h3 h4
    simp [loopIter, masterPhase, h1, h2, h3, h4]

/-- Witness for C8: a concrete iteration whose stdin read returns
end-of-stream continues the loop with `stdin_open` cleared. -/
theorem claim_C8_witness :
    loopIter 7 3
        ⟨none, SelRes.ready true false, ReadRes.eof, ReadRes.eof, 0, allOkEnv, true, true⟩
        ⟨true, parser_init 8192⟩
      = IterRes.next ⟨false, parser_init 8192⟩ [] :=
  (claim_C8_stdin_close 7 3 _ _ rfl rfl rfl).1 rfl

end Ptyd
